import Mathlib

/-!
Verification of the BustAPI dispatch layer (`src/python/bustapi`).

Shallow embedding of the Python source in Lean 4.  Each definition is a
direct translation of a function of the repository; the source file and
line numbers are given in the doc comments.  Modules of the repository
that are not present under `src/` (`request.py`, `response.py`) and the
external libraries (`contextvars`, `itsdangerous`, `asyncio`) are
modelled from the spec respectively from their documented behaviour, and
each such definition says so in its doc comment.
-/

namespace BustAPI

/-! ### Python primitives used by the embedded code -/

/-- Python values that can flow into handler keyword arguments: the code
only ever stores strings or ints there (`app.py:304-330`). -/
inductive PVal where
  | str (s : String)
  | int (n : Int)
deriving DecidableEq, Repr

/-- Python whitespace stripped by `str.strip()` (ASCII subset). -/
def isPyWs (c : Char) : Bool :=
  c = ' ' || c = '\t' || c = '\n' || c = '\x0d' || c = '\x0b' || c = '\x0c'

/-- Python `s.strip()` on a char list: drop whitespace from both ends. -/
def stripWsL (l : List Char) : List Char :=
  ((l.dropWhile isPyWs).reverse.dropWhile isPyWs).reverse

/-- Python `s.strip()` (default whitespace strip, ASCII subset). -/
def pyStripWs (s : String) : String := ⟨stripWsL s.data⟩

/-- Python `s.strip("/")`: drop `/` characters from both ends. -/
def pyStripSlash (s : String) : String :=
  ⟨((s.data.dropWhile (· = '/')).reverse.dropWhile (· = '/')).reverse⟩

/-- Python `s.split(sep)` for a one-character separator: splitting the
empty string gives `[""]`, and adjacent separators give empty fields. -/
def pySplitChar (sep : Char) (l : List Char) : List (List Char) :=
  l.foldr
    (fun c acc =>
      match acc with
      | [] => [[c]]
      | cur :: rest => if c = sep then [] :: cur :: rest else (c :: cur) :: rest)
    [[]]

/-- Digit-run parser for Python `int(str)`: a nonempty digit sequence in
which single underscores may appear between digits. -/
def pyIntDigits : List Char → Nat → Option Nat
  | [], acc => some acc
  | '_' :: c :: rest, acc =>
      if c.isDigit then pyIntDigits rest (acc * 10 + (c.toNat - 48)) else none
  | '_' :: [], _ => none
  | c :: rest, acc =>
      if c.isDigit then pyIntDigits rest (acc * 10 + (c.toNat - 48)) else none

/-- Python `int(s)` for a `str` argument (`app.py:325`): optional
whitespace, optional sign, then a digit run (ASCII decimal digits;
grouping underscores allowed between digits).  `none` models the
`ValueError` raised on any other shape. -/
def pyInt (s : String) : Option Int :=
  match stripWsL s.data with
  | [] => none
  | '+' :: rest =>
      match rest with
      | [] => none
      | c :: _ => if c.isDigit then (pyIntDigits rest 0).map fun n => (n : Int)
          else none
  | '-' :: rest =>
      match rest with
      | [] => none
      | c :: _ => if c.isDigit then (pyIntDigits rest 0).map fun n => -(n : Int)
          else none
  | l@(c :: _) =>
      if c.isDigit then (pyIntDigits l 0).map fun n => (n : Int) else none

/-- Python `dict` assignment `d[k] = v`: overwrite in place when the key
exists (keeping its position), append otherwise. -/
def dictSet {α : Type} : List (String × α) → String → α → List (String × α)
  | [], k, v => [(k, v)]
  | (k0, v0) :: rest, k, v =>
      if k0 = k then (k0, v) :: rest else (k0, v0) :: dictSet rest k v

/-- Python `d.update(other)`: assign every entry of `other` in order. -/
def dictUpdate {α : Type} (d other : List (String × α)) : List (String × α) :=
  other.foldl (fun acc kv => dictSet acc kv.1 kv.2) d

/-- Python `d.get(k)`. -/
def dictGet {α : Type} (d : List (String × α)) (k : String) : Option α :=
  (d.find? (fun kv => kv.1 = k)).map (·.2)

/-! ### `BustAPI._extract_path_params` (`src/python/bustapi/app.py:304-330`) -/

/-- Split a rule segment `rp[1:-1]` at the first `:`; models
`inner.split(":", 1)` (`app.py:316`). -/
def splitFirstColon (l : List Char) : List Char × List Char :=
  (l.takeWhile (· ≠ ':'), (l.dropWhile (· ≠ ':')).drop 1)

/-- Body of the `for rp, pp in zip(rule_parts, path_parts)` loop of
`_extract_path_params` (`app.py:312-329`): when the rule part is a
`<...>` placeholder, parse its optional `type:` prefix, convert the path
part with `int()` for the `int` type (falling back to the raw string on
`ValueError`), and assign it into `kwargs`. -/
def extractStep (kwargs : List (String × PVal)) (rp pp : String) :
    List (String × PVal) :=
  if rp.data.head? = some '<' ∧ rp.data.getLast? = some '>' then
    let inner := (rp.data.drop 1).dropLast
    let tn : String × String :=
      if ':' ∈ inner then
        let p := splitFirstColon inner
        (⟨stripWsL p.1⟩, ⟨stripWsL p.2⟩)
      else ("str", ⟨stripWsL inner⟩)
    let val : PVal :=
      if tn.1 = "int" then
        match pyInt pp with
        | some n => PVal.int n
        | none => PVal.str pp
      else PVal.str pp
    dictSet kwargs tn.2 val
  else kwargs

/-- `BustAPI._extract_path_params(rule, path)` (`app.py:304-330`):
strip `/` from both rule and path, split on `/`, return empty bindings on
a length mismatch, otherwise run the placeholder loop over the zipped
segments.  The positional-argument list is always returned empty, as in
the source. -/
def extract_path_params (rule path : String) :
    List String × List (String × PVal) :=
  let ruleParts := (pySplitChar '/' (pyStripSlash rule).data).map String.mk
  let pathParts := (pySplitChar '/' (pyStripSlash path).data).map String.mk
  if ruleParts.length ≠ pathParts.length then ([], [])
  else ([], (ruleParts.zip pathParts).foldl
    (fun kw s => extractStep kw s.1 s.2) [])

/-- Modelled from the spec: `_extract_query_params` is called by the
dispatch wrapper (`src/python/bustapi/dispatch.py:61,87`) but its
definition is not under `src/`.  The spec (§4.2 step (d)) only says that
parameters are extracted per RouteBinding; we model the query-parameter
step as returning the request's query-string bindings, which is empty
for a request whose URL carries no query string. -/
def extract_query_params (query : List (String × PVal)) :
    List (String × PVal) := query

/-- Python `"<" not in rule` (`dispatch.py:82`). -/
def ruleHasParam (rule : String) : Bool := rule.data.contains '<'

/-- Keyword arguments with which the no-middleware branch of
`create_sync_wrapper` invokes the handler (`dispatch.py:82-89`): a rule
without `<` calls `handler()` with no arguments; otherwise the path
bindings are merged (`kwargs.update`) with the query bindings and passed
as `handler(**kwargs)`. -/
def noMiddlewareHandlerKwargs (rule path : String)
    (query : List (String × PVal)) : List (String × PVal) :=
  if ruleHasParam rule then
    dictUpdate (extract_path_params rule path).2 (extract_query_params query)
  else []

/-! ### Claims C5 and C10: path-parameter extraction -/

/-- Claim C5, counterexample.  The claim states that for a route
registered with rule `/user/<id:int>` and a request for `/user/42`,
extraction produces the binding `id = 42` as an integer.  On the code it
does not: `_extract_path_params` parses the part before the first `:` as
the type and the part after it as the name (`app.py:316-318`), so the
rule `<id:int>` has type `id` and name `int`; the type is not `int`, so
no integer conversion happens, and the resulting bindings are
`int = "42"` (a string) with no binding for `id` at all. -/
theorem extract_path_params_id_colon_int_counterexample :
    extract_path_params "/user/<id:int>" "/user/42"
      = ([], [("int", PVal.str "42")]) ∧
    dictGet (extract_path_params "/user/<id:int>" "/user/42").2 "id" = none ∧
    noMiddlewareHandlerKwargs "/user/<id:int>" "/user/42" []
      ≠ [("id", PVal.int 42)] := by
  refine ⟨rfl, rfl, ?_⟩
  intro h
  have h2 : ([("int", PVal.str "42")] : List (String × PVal))
      = [("id", PVal.int 42)] := by
    rw [show noMiddlewareHandlerKwargs "/user/<id:int>" "/user/42" []
        = [("int", PVal.str "42")] from rfl] at h
    exact h
  simp at h2

/-- Claim C5, amended: for a route registered with rule `/user/<int:id>`
(the converter before the name, which is the order the code parses) and
an incoming request for path `/user/42`, parameter extraction produces
the binding `id = 42` as an integer, and the no-middleware branch of the
sync wrapper invokes the handler with exactly that integer keyword
argument (`app.py:304-330`, `dispatch.py:85-89`). -/
theorem extract_path_params_int_id_route :
    extract_path_params "/user/<int:id>" "/user/42"
      = ([], [("id", PVal.int 42)]) ∧
    noMiddlewareHandlerKwargs "/user/<int:id>" "/user/42" []
      = [("id", PVal.int 42)] :=
  ⟨rfl, rfl⟩

/-- Claim C10: for a rule segment `<int:name>` whose corresponding path
segment is not a valid decimal integer, extraction does not fail — the
`except ValueError` branch (`app.py:326-327`) keeps the raw string — and
the binding passed to the handler maps the parameter name to the raw
path-segment string.  The second conjunct shows the wrapper reaching the
handler with `id = "abc"` for the route `/user/<int:id>` and the path
`/user/abc`, so no 4xx is produced by extraction. -/
theorem int_segment_parse_failure_binds_raw_string :
    (∀ (name seg : String) (kwargs : List (String × PVal)),
        pyInt seg = none →
        extractStep kwargs ("<int:" ++ name ++ ">") seg
          = dictSet kwargs (pyStripWs name) (PVal.str seg)) ∧
    noMiddlewareHandlerKwargs "/user/<int:id>" "/user/abc" []
      = [("id", PVal.str "abc")] := by
  refine ⟨?_, rfl⟩
  intro name seg kwargs h
  have hd : ("<int:" ++ name ++ ">").data
      = ('<' :: 'i' :: 'n' :: 't' :: ':' ::name.data) ++ ['>'] := by
    simp [String.data_append]
  have e1 : (("<int:" ++ name ++ ">").data).head? = some '<' := by
    rw [hd]; rfl
  have e2 : (("<int:" ++ name ++ ">").data).getLast? = some '>' := by
    rw [hd, List.getLast?_concat]
  have e3 : ((("<int:" ++ name ++ ">").data).drop 1).dropLast
      = 'i' :: 'n' :: 't' :: ':' ::name.data := by
    rw [hd, List.cons_append, List.drop_succ_cons, List.drop_zero,
      List.dropLast_concat]
  simp only [extractStep, e1, e2, e3]
  rw [show splitFirstColon ('i' :: 'n' :: 't' :: ':' ::name.data)
      = (['i','n','t'], name.data) from rfl]
  have mem : ':' ∈ 'i' :: 'n' :: 't' :: ':' ::name.data :=
    List.Mem.tail _ (List.Mem.tail _ (List.Mem.tail _ (List.Mem.head _)))
  rw [if_pos (⟨trivial, trivial⟩ : True ∧ True), if_pos mem, h]
  rfl

/-- Witness for claim C10 at the concrete inputs `name = "id"`,
`seg = "abc"`, empty kwargs. -/
theorem int_segment_parse_failure_binds_raw_string_witness :
    pyInt "abc" = none ∧
    extractStep [] ("<int:" ++ "id" ++ ">") "abc"
      = dictSet [] (pyStripWs "id") (PVal.str "abc") :=
  ⟨rfl, int_segment_parse_failure_binds_raw_string.1 "id" "abc" [] rfl⟩

/-! ### Claim C1: request-context release in `create_sync_wrapper`
(`src/python/bustapi/dispatch.py:15-147`) -/

/-- Modelled from the spec and the Python standard library: the
request-context slot `_request_ctx` is defined in `bustapi/http/request.py`,
which is not under `src/`.  The call pattern visible in `dispatch.py`
(`token = _request_ctx.set(request)`, `_request_ctx.reset(token)`,
`"token" in locals()`) is the `contextvars.ContextVar` API, whose
documented semantics we embed: `set` returns a one-shot token recording
the previous value, and `reset(token)` restores that value, raising a
`RuntimeError` if the token has already been used once. -/
structure CtxState where
  slot : Option Nat
  tokenSet : Bool
  tokenOld : Option Nat
  tokenUsed : Bool
deriving DecidableEq, Repr

/-- `token = _request_ctx.set(request)` (`dispatch.py:31`): bind the
request, remember the previous slot value in the token. -/
def ctxSetToken (v : Nat) (st : CtxState) : CtxState :=
  { slot := some v, tokenSet := true, tokenOld := st.slot, tokenUsed := false }

/-- `_request_ctx.set(None)` (`dispatch.py:145`): plain clear, no token
bookkeeping. -/
def ctxSetNone (st : CtxState) : CtxState := { st with slot := none }

/-- `_request_ctx.reset(token)`: `none` models the `RuntimeError` that
`contextvars` raises when the token was already used; otherwise the slot
is restored to the token's saved value and the token is consumed. -/
def ctxReset (st : CtxState) : Option CtxState :=
  if st.tokenUsed then none
  else some { st with slot := st.tokenOld, tokenUsed := true }

/-- Result of one `before_request` function (`dispatch.py:42-50`):
return `None` (continue), return a value (short-circuit), or raise. -/
inductive BeforeOutcome where
  | retNone
  | retSome
  | raiseExc
deriving DecidableEq, Repr

/-- How the `try` body of the wrapper exits, as far as the context slot
is concerned.  `earlyReturn` is the before-request short-circuit return
at `dispatch.py:50`; `caughtExc` is any body exception, which the
`except` clause at `dispatch.py:129-131` converts into an error-response
return; `normalReturn` covers the fast-path and full-path returns. -/
inductive BodyExit where
  | normalReturn
  | earlyReturn
  | caughtExc
deriving DecidableEq, Repr

/-- One dispatched request through the sync wrapper, with no signing key
configured (so the session branches at `dispatch.py:36-39,47-48,122-124`
are skipped) and no after-request hooks; neither touches the context
slot. -/
structure SyncDispatchCase where
  fromRustRaises : Bool
  before : List BeforeOutcome
  middleware : Bool
  mwRequestRaises : Bool
  mwShortCircuit : Bool
  handlerRaises : Bool
  mwResponseRaises : Bool
  teardownRaises : List Bool
deriving DecidableEq, Repr

/-- Scan of the before-request loop (`dispatch.py:42-50`): the first
non-`None` result returns early, the first exception aborts the body. -/
def beforeExit : List BeforeOutcome → Option BodyExit
  | [] => none
  | .retNone :: rest => beforeExit rest
  | .retSome :: _ => some .earlyReturn
  | .raiseExc :: _ => some .caughtExc

/-- Exit mode of the wrapper's `try` body (`dispatch.py:20-127`),
following the source's branch structure: before-request loop, then the
middleware branch (`process_request` short-circuit at 55-57, handler at
63, `process_response` at 114-115) or the no-middleware fast path
(handler at 83/89, direct tuple return or full response). -/
def bodyExit (c : SyncDispatchCase) : BodyExit :=
  match beforeExit c.before with
  | some e => e
  | none =>
      if c.middleware then
        if c.mwRequestRaises then .caughtExc
        else if c.mwShortCircuit then
          if c.mwResponseRaises then .caughtExc else .normalReturn
        else if c.handlerRaises then .caughtExc
        else if c.mwResponseRaises then .caughtExc
        else .normalReturn
      else if c.handlerRaises then .caughtExc
      else .normalReturn

/-- Observable effect of one wrapper run on the context slot. -/
structure SyncDispatchTrace where
  releases : Nat
  plainClears : Nat
  teardownErrorsSwallowed : Nat
  cleanupRaised : Bool
  ctx : CtxState
deriving DecidableEq, Repr

/-- `create_sync_wrapper`'s wrapper (`dispatch.py:19-145`) as a state
function on the context slot.  The `finally` block (132-145) runs the
teardown callbacks with their exceptions swallowed (136-139), then
resets the token when it exists (142-143) and plainly clears the slot
otherwise (145).  On the before-request short-circuit path the body has
already reset the token (49) before returning (50), so the `finally`
reset operates on a used token. -/
def create_sync_wrapper_run (c : SyncDispatchCase) (st0 : CtxState) :
    SyncDispatchTrace :=
  let swallowed := (c.teardownRaises.filter id).length
  if c.fromRustRaises then
    { releases := 0, plainClears := 1, teardownErrorsSwallowed := swallowed,
      cleanupRaised := false, ctx := ctxSetNone st0 }
  else
    let st1 := ctxSetToken 1 st0
    match bodyExit c with
    | .earlyReturn =>
        match ctxReset st1 with
        | some st2 =>
            match ctxReset st2 with
            | some st3 =>
                { releases := 2, plainClears := 0,
                  teardownErrorsSwallowed := swallowed,
                  cleanupRaised := false, ctx := st3 }
            | none =>
                { releases := 1, plainClears := 0,
                  teardownErrorsSwallowed := swallowed,
                  cleanupRaised := true, ctx := st2 }
        | none =>
            match ctxReset st1 with
            | some st2 =>
                { releases := 1, plainClears := 0,
                  teardownErrorsSwallowed := swallowed,
                  cleanupRaised := false, ctx := st2 }
            | none =>
                { releases := 0, plainClears := 0,
                  teardownErrorsSwallowed := swallowed,
                  cleanupRaised := true, ctx := st1 }
    | _ =>
        match ctxReset st1 with
        | some st2 =>
            { releases := 1, plainClears := 0,
              teardownErrorsSwallowed := swallowed,
              cleanupRaised := false, ctx := st2 }
        | none =>
            { releases := 0, plainClears := 0,
              teardownErrorsSwallowed := swallowed,
              cleanupRaised := true, ctx := st1 }

/-- The dispatch case in which one registered `before_request` function
returns a non-`None` value, with everything else plain. -/
def beforeShortCircuitCase : SyncDispatchCase :=
  { fromRustRaises := false, before := [.retSome], middleware := false,
    mwRequestRaises := false, mwShortCircuit := false, handlerRaises := false,
    mwResponseRaises := false, teardownRaises := [] }

/-- Claim C1.  The claim requires the context slot to be released
exactly once on every exit path — including the before-request
short-circuit return — with the wrapper never raising out of its
cleanup.  On the code this fails: on the short-circuit path the token is
reset both at `dispatch.py:49` and in the `finally` block at
`dispatch.py:143`, and the second `ContextVar.reset` on the used token
raises a `RuntimeError` out of the cleanup (first conjunct).  The other
three exit paths of the claim — normal return, handler exception,
middleware exception — do release exactly once without raising
(remaining conjuncts). -/
theorem sync_wrapper_short_circuit_cleanup_raises :
    (create_sync_wrapper_run beforeShortCircuitCase
        ⟨none, false, none, false⟩).cleanupRaised = true ∧
    (create_sync_wrapper_run beforeShortCircuitCase
        ⟨none, false, none, false⟩).releases = 1 ∧
    (create_sync_wrapper_run { beforeShortCircuitCase with before := [] }
        ⟨none, false, none, false⟩)
      = { releases := 1, plainClears := 0, teardownErrorsSwallowed := 0,
          cleanupRaised := false, ctx := ⟨none, true, none, true⟩ } ∧
    (create_sync_wrapper_run
        { beforeShortCircuitCase with before := [], handlerRaises := true }
        ⟨none, false, none, false⟩)
      = { releases := 1, plainClears := 0, teardownErrorsSwallowed := 0,
          cleanupRaised := false, ctx := ⟨none, true, none, true⟩ } ∧
    (create_sync_wrapper_run
        { beforeShortCircuitCase with
            before := [], middleware := true, mwRequestRaises := true }
        ⟨none, false, none, false⟩)
      = { releases := 1, plainClears := 0, teardownErrorsSwallowed := 0,
          cleanupRaised := false, ctx := ⟨none, true, none, true⟩ } :=
  ⟨rfl, rfl, rfl, rfl, rfl⟩

/-! ### Claims C6, C7, C8: cookie sessions
(`src/python/bustapi/sessions.py`) -/

/-- `SessionMixin` (`sessions.py:11-33`): a dict together with a
`modified` flag that any mutation sets.  `SecureCookieSession` and the
fresh `self.session_class()` instances start with `modified = False`
(`sessions.py:14-16`). -/
structure Session where
  data : List (String × String)
  modified : Bool
deriving DecidableEq, Repr

/-- `SessionMixin.__setitem__` (`sessions.py:18-20`): store and mark
modified. -/
def sessionSetItem (s : Session) (k v : String) : Session :=
  { data := dictSet s.data k v, modified := true }

/-- The application fields read by the session interface
(`sessions.py:72,101-102,124-125`): the signing key and the
`SESSION_COOKIE_*` configuration entries with their `config.get`
defaults. -/
structure SessionApp where
  secret_key : Option String
  cookieDomain : Option String
  cookiePath : String
  cookieSecure : Bool
  cookieSamesite : String
deriving DecidableEq, Repr

/-- Python truthiness of `app.secret_key` (`sessions.py:72`): `None` and
the empty string are falsy. -/
def secretTruthy : Option String → Bool
  | none => false
  | some k => k ≠ ""

/-- Modelled from the external `itsdangerous` library: a cookie value is
either a structurally valid signed token carrying a payload, or an
arbitrary raw string (anything externally supplied that is not a token
produced with the right key). -/
inductive CookieVal where
  | raw (s : String)
  | token (payload : List (String × String)) (sig : Nat)
deriving DecidableEq, Repr

/-- Modelled from the external `itsdangerous` library: the signature an
`URLSafeTimedSerializer` built on `secret` attaches to `payload` —
an executable keyed hash, standing in for HMAC. -/
def sigOf (secret : String) (payload : List (String × String)) : Nat :=
  let hs (s : String) (seed : Nat) : Nat :=
    s.data.foldl (fun a c => (a * 67 + c.toNat) % 1000000007) seed
  payload.foldl
    (fun acc kv => (acc * 131 + hs kv.1 7 * 31 + hs kv.2 11) % 1000000007)
    (hs secret 3)

/-- `signer.dumps(session)` (`sessions.py:117`): serialize and sign the
session content with the app's key. -/
def serializerDumps (secret : String) (payload : List (String × String)) :
    CookieVal :=
  .token payload (sigOf secret payload)

/-- Modelled from the external `itsdangerous` library: the exception
`s.loads` raises on a value that was not produced by `dumps` with the
same key — every externally forged or corrupted cookie value fails
signature verification, which `open_session` catches as `BadSignature`
(`sessions.py:97`). -/
inductive SessionLoadError where
  | badSignature
deriving DecidableEq, Repr

/-- `s.loads(val)` (`sessions.py:95`), modelled from the external
`itsdangerous` library: verify the signature against the payload and
key; any mismatch or non-token value fails. -/
def serializerLoads (secret : String) :
    CookieVal → Except SessionLoadError (List (String × String))
  | .raw _ => .error .badSignature
  | .token p sig =>
      if sig = sigOf secret p then .ok p else .error .badSignature

/-- `SecureCookieSessionInterface.get_signing_serializer`
(`sessions.py:71-82`): `None` when the key is falsy, otherwise a
serializer bound to the key (represented by the key itself). -/
def get_signing_serializer (app : SessionApp) : Option String :=
  match app.secret_key with
  | none => none
  | some k => if k = "" then none else some k

/-- One `Set-Cookie` written on a response, with the arguments
`save_session` passes (`sessions.py:107-109,118-126`). -/
structure SetCookieEntry where
  name : String
  value : CookieVal
  expires : Option Nat
  httponly : Bool
  domain : Option String
  path : String
  secure : Bool
  samesite : Option String
deriving DecidableEq, Repr

/-- The part of a response the session interface touches. -/
structure SessionResponse where
  cookies : List SetCookieEntry
deriving DecidableEq, Repr

/-- Modelled from the spec: `Response.set_cookie` lives in
`bustapi/http/response.py`, which is not under `src/`; the spec (§4.4)
says the cookie is set with the configured domain/path/secure/same-site.
Modelled as recording the `Set-Cookie` entry on the response. -/
def set_cookie (r : SessionResponse) (e : SetCookieEntry) : SessionResponse :=
  { cookies := r.cookies ++ [e] }

/-- `SecureCookieSessionInterface.open_session` (`sessions.py:84-98`):
`None` when no signing serializer exists; a fresh empty session when the
request carries no `session` cookie; the deserialized content on a valid
signature; a fresh empty session when `loads` fails (the
`except BadSignature` branch).  The function is total: no error escapes. -/
def open_session (app : SessionApp) (cookies : List (String × CookieVal)) :
    Option Session :=
  match get_signing_serializer app with
  | none => none
  | some key =>
      match dictGet cookies "session" with
      | none => some ⟨[], false⟩
      | some val =>
          match serializerLoads key val with
          | .ok d => some ⟨d, false⟩
          | .error .badSignature => some ⟨[], false⟩

/-- `SecureCookieSessionInterface.save_session` (`sessions.py:100-127`):
delete the cookie when the session is empty and modified; otherwise do
nothing without a signing serializer; otherwise set the signed cookie
when modified, and write nothing when not. -/
def save_session (app : SessionApp) (s : Session) (r : SessionResponse) :
    SessionResponse :=
  if s.data.isEmpty ∧ s.modified then
    set_cookie r
      { name := "session", value := .raw "", expires := some 0,
        httponly := false, domain := app.cookieDomain, path := app.cookiePath,
        secure := false, samesite := none }
  else
    match get_signing_serializer app with
    | none => r
    | some key =>
        if s.modified then
          set_cookie r
            { name := "session", value := serializerDumps key s.data,
              expires := none, httponly := true, domain := app.cookieDomain,
              path := app.cookiePath, secure := app.cookieSecure,
              samesite := some app.cookieSamesite }
        else r

/-- Saving an unmodified session changes nothing (single call). -/
theorem save_session_unmodified_id (app : SessionApp) (s : Session)
    (r : SessionResponse) (h : s.modified = false) :
    save_session app s r = r := by
  unfold save_session
  rw [if_neg (by simp [h])]
  cases get_signing_serializer app with
  | none => rfl
  | some key => simp [h]

/-- Claim C6: for every session whose `modified` flag is false,
`save_session` writes no `Set-Cookie` — the response is unchanged — and
this holds across arbitrarily many repeated save calls
(`sessions.py:105,116`: both cookie-writing branches require
`session.modified`). -/
theorem save_session_unmodified_idempotent (app : SessionApp) (s : Session)
    (r : SessionResponse) (n : Nat) (h : s.modified = false) :
    (fun resp => save_session app s resp)^[n] r = r := by
  induction n with
  | zero => rfl
  | succ k ih =>
      rw [Function.iterate_succ_apply, save_session_unmodified_id app s r h]
      exact ih

/-- Witness for claim C6 at a concrete app, session, response and three
repeated saves. -/
theorem save_session_unmodified_idempotent_witness :
    (({ data := [("u", "1")], modified := false } : Session).modified
        = false) ∧
    (fun resp => save_session
        ⟨some "key", none, "/", false, "Lax"⟩
        { data := [("u", "1")], modified := false } resp)^[3]
      ⟨[]⟩ = (⟨[]⟩ : SessionResponse) :=
  ⟨rfl, save_session_unmodified_idempotent
    ⟨some "key", none, "/", false, "Lax"⟩
    { data := [("u", "1")], modified := false } ⟨[]⟩ 3 rfl⟩

/-- The signing serializer is absent exactly when the key is falsy
(`sessions.py:72-73`). -/
theorem gss_none_iff (app : SessionApp) :
    get_signing_serializer app = none ↔ secretTruthy app.secret_key = false := by
  cases h : app.secret_key with
  | none => simp [get_signing_serializer, secretTruthy, h]
  | some k =>
      by_cases hk : k = "" <;>
        simp [get_signing_serializer, secretTruthy, h, hk]

/-- With a signing serializer present, `open_session` always produces a
session (`sessions.py:88-98`: every branch after the serializer check
returns a session object). -/
theorem open_session_isSome (app : SessionApp)
    (cookies : List (String × CookieVal)) (key : String)
    (h : get_signing_serializer app = some key) :
    ∃ s, open_session app cookies = some s := by
  cases hd : dictGet cookies "session" with
  | none => exact ⟨⟨[], false⟩, by simp [open_session, h, hd]⟩
  | some val =>
      cases hl : serializerLoads key val with
      | ok d => exact ⟨⟨d, false⟩, by simp [open_session, h, hd, hl]⟩
      | error e =>
          cases e
          exact ⟨⟨[], false⟩, by simp [open_session, h, hd, hl]⟩

/-- Claim C7: writing a key marks the session modified
(`sessions.py:18-20`), and for every non-empty modified session under a
configured signing key, `save_session` writes exactly one signed
`session` cookie (`sessions.py:116-126`) and `open_session` on that
cookie value yields a session with identical key-value content
(`sessions.py:93-96`). -/
theorem session_set_save_reopen_roundtrip :
    (∀ (s : Session) (k v : String), (sessionSetItem s k v).modified = true) ∧
    (∀ (app : SessionApp) (key : String) (s : Session) (r : SessionResponse),
      app.secret_key = some key → key ≠ "" → s.modified = true →
      s.data ≠ [] →
      (save_session app s r).cookies
        = r.cookies ++ [{ name := "session",
                          value := serializerDumps key s.data,
                          expires := none, httponly := true,
                          domain := app.cookieDomain,
                          path := app.cookiePath,
                          secure := app.cookieSecure,
                          samesite := some app.cookieSamesite }] ∧
      open_session app [("session", serializerDumps key s.data)]
        = some ⟨s.data, false⟩) := by
  refine ⟨fun s k v => rfl, ?_⟩
  intro app key s r h1 h2 h3 h4
  have hser : get_signing_serializer app = some key := by
    simp [get_signing_serializer, h1, h2]
  constructor
  · have hie : s.data.isEmpty = false := by
      cases hd : s.data with
      | nil => exact absurd hd h4
      | cons a l => rfl
    simp [save_session, hie, hser, h3, set_cookie]
  · unfold open_session
    rw [hser]
    simp [dictGet, serializerDumps, serializerLoads]

/-- Witness for claim C7: write one key into a fresh session, save it
under the key `"key"`, reopen from the produced cookie value. -/
theorem session_set_save_reopen_roundtrip_witness :
    (sessionSetItem ⟨[], false⟩ "u" "1").modified = true ∧
    ((some "key" : Option String) = some "key" ∧ "key" ≠ "" ∧
      (⟨[("u", "1")], true⟩ : Session).modified = true ∧
      ([("u", "1")] : List (String × String)) ≠ [] ∧
      (save_session ⟨some "key", none, "/", false, "Lax"⟩
          ⟨[("u", "1")], true⟩ ⟨[]⟩).cookies
        = [] ++ [{ name := "session",
                   value := serializerDumps "key" [("u", "1")],
                   expires := none, httponly := true, domain := none,
                   path := "/", secure := false,
                   samesite := some "Lax" }] ∧
      open_session ⟨some "key", none, "/", false, "Lax"⟩
          [("session", serializerDumps "key" [("u", "1")])]
        = some ⟨[("u", "1")], false⟩) := by
  refine ⟨session_set_save_reopen_roundtrip.1 ⟨[], false⟩ "u" "1",
    rfl, by decide, rfl, by decide, ?_, ?_⟩
  · exact (session_set_save_reopen_roundtrip.2
      ⟨some "key", none, "/", false, "Lax"⟩ "key" ⟨[("u", "1")], true⟩ ⟨[]⟩
      rfl (by decide) rfl (by decide)).1
  · exact (session_set_save_reopen_roundtrip.2
      ⟨some "key", none, "/", false, "Lax"⟩ "key" ⟨[("u", "1")], true⟩ ⟨[]⟩
      rfl (by decide) rfl (by decide)).2

/-- Claim C8: `open_session` returns `None` exactly when sessions are
disabled — the signing key is falsy (`sessions.py:85-87`) — and for any
incoming cookie value that fails signature verification it returns a
fresh empty session instead of surfacing an error (`sessions.py:93-98`,
the `except BadSignature` branch; `open_session` is total in the
embedding, mirroring that no exception escapes). -/
theorem open_session_none_iff_disabled :
    (∀ (app : SessionApp) (cookies : List (String × CookieVal)),
        open_session app cookies = none ↔
          secretTruthy app.secret_key = false) ∧
    (∀ (app : SessionApp) (key : String) (val : CookieVal),
        app.secret_key = some key → key ≠ "" →
        serializerLoads key val = .error .badSignature →
        open_session app [("session", val)] = some ⟨[], false⟩) := by
  constructor
  · intro app cookies
    cases hs : get_signing_serializer app with
    | none =>
        have hopen : open_session app cookies = none := by
          unfold open_session
          rw [hs]
        rw [hopen]
        simp [(gss_none_iff app).mp hs]
    | some key =>
        obtain ⟨s, hs2⟩ := open_session_isSome app cookies key hs
        rw [hs2]
        have ht : secretTruthy app.secret_key = true := by
          rcases h2 : secretTruthy app.secret_key with _ | _
          · exact absurd ((gss_none_iff app).mpr h2) (by simp [hs])
          · rfl
        simp [ht]
  · intro app key val h1 h2 hload
    have hser : get_signing_serializer app = some key := by
      simp [get_signing_serializer, h1, h2]
    unfold open_session
    rw [hser]
    simp [dictGet, hload]

/-- Witness for claim C8: a configured app opened with no cookie, and
with a forged raw cookie value. -/
theorem open_session_none_iff_disabled_witness :
    (open_session ⟨some "key", none, "/", false, "Lax"⟩ [] = none ↔
      secretTruthy (some "key") = false) ∧
    ((some "key" : Option String) = some "key" ∧ "key" ≠ "" ∧
      serializerLoads "key" (.raw "forged") = .error .badSignature ∧
      open_session ⟨some "key", none, "/", false, "Lax"⟩
          [("session", .raw "forged")] = some ⟨[], false⟩) :=
  ⟨open_session_none_iff_disabled.1 ⟨some "key", none, "/", false, "Lax"⟩ [],
    rfl, by decide, rfl,
    open_session_none_iff_disabled.2 ⟨some "key", none, "/", false, "Lax"⟩
      "key" (.raw "forged") rfl (by decide) rfl⟩

/-! ### Claim C9: exception handling
(`src/python/bustapi/app.py:571-589`, reached from
`dispatch.py:129-131`) -/

/-- A raised Python exception as `_handle_exception` inspects it: the
ids of its class and all ancestor classes (for `isinstance`), its string
form, and its `code` attribute when present (`hasattr`). -/
structure PyExc where
  types : List Nat
  msg : String
  code : Option Int

/-- A key of `app.error_handler_spec` (`app.py:66,384-399`): an
exception class or an `int` status code.  Python dicts iterate in
insertion order, so the table is an ordered list. -/
inductive ErrorKey where
  | excType (t : Nat)
  | status (c : Int)
deriving DecidableEq, Repr

/-- The response produced for an error: body and status. -/
structure ErrResponse where
  body : String
  status : Int
deriving DecidableEq, Repr

/-- Modelled from the spec: `make_response` on the bare value a
registered error handler returns (`app.py:578,581` via
`response.py`, absent from `src/`); spec §4.2 step (e): a bare value
becomes `(body, 200)`. -/
def make_response_bare (body : String) : ErrResponse := ⟨body, 200⟩

/-- Whether one registered key matches the exception, as the loop body
of `_handle_exception` tests it (`app.py:575-581`): `isinstance` for a
class key, equality with the `code` attribute for an int key. -/
def errorKeyMatches (k : ErrorKey) (e : PyExc) : Bool :=
  match k with
  | .excType t => decide (t ∈ e.types)
  | .status c => decide (e.code = some c)

/-- `BustAPI._handle_exception` (`app.py:571-589`): walk the handler
table in registration order, testing each entry — class keys by
`isinstance`, int keys by equality with the exception's `code`
attribute — and return the first match's handler result as a response;
with no match, default to the `code` attribute (500 when absent) with
body `"Internal Server Error: "` followed by the exception message. -/
def handle_exception (table : List (ErrorKey × (PyExc → String)))
    (e : PyExc) : ErrResponse :=
  match table with
  | [] =>
      ⟨"Internal Server Error: " ++ e.msg,
        match e.code with
        | some c => c
        | none => 500⟩
  | (k, h) :: rest =>
      match k with
      | .excType t =>
          if t ∈ e.types then make_response_bare (h e)
          else handle_exception rest e
      | .status c =>
          match e.code with
          | some ec =>
              if ec = c then make_response_bare (h e)
              else handle_exception rest e
          | none => handle_exception rest e

/-- Claim C9, counterexample.  The claim states that type-keyed handlers
are checked before status-keyed ones and that the no-match default is
status 500 with the exception message as body.  On the code neither
holds: the table is walked in registration order regardless of key kind
(`app.py:574-581`), so an earlier status-keyed registration beats a
later type-keyed one (first conjunct: the exception is an instance of
class 7 whose handler returns "by-type", yet the earlier 404 key wins);
and the default body carries the prefix `"Internal Server Error: "`
(`app.py:589`) while the default status reuses the exception's `code`
attribute when present (`app.py:584-587`), not 500 (last conjuncts). -/
theorem handle_exception_type_first_counterexample :
    handle_exception
        [(.status 404, fun _ => "by-code"), (.excType 7, fun _ => "by-type")]
        ⟨[7], "boom", some 404⟩ = ⟨"by-code", 200⟩ ∧
    (⟨"by-code", 200⟩ : ErrResponse) ≠ ⟨"by-type", 200⟩ ∧
    handle_exception [] ⟨[3], "boom", none⟩
      = ⟨"Internal Server Error: boom", 500⟩ ∧
    "Internal Server Error: boom" ≠ "boom" ∧
    handle_exception [] ⟨[3], "boom", some 418⟩
      = ⟨"Internal Server Error: boom", 418⟩ :=
  ⟨rfl, by decide, rfl, by decide, rfl⟩

/-- Claim C9, amended: every exception reaching the `except` clause of
the sync wrapper (`dispatch.py:129-131`) is matched against the handler
table in registration order — a class key matching by `isinstance`, an
int key by equality with the exception's `code` attribute — with the
first matching registration winning (first conjunct); when no
registration matches, the response status is the exception's `code`
attribute when present and 500 otherwise, and the body is
`"Internal Server Error: "` followed by the exception message (second
conjunct). -/
theorem handle_exception_first_match_registration_order :
    (∀ (pre post : List (ErrorKey × (PyExc → String))) (k : ErrorKey)
        (h : PyExc → String) (e : PyExc),
        (∀ kh ∈ pre, errorKeyMatches kh.1 e = false) →
        errorKeyMatches k e = true →
        handle_exception (pre ++ (k, h) :: post) e = ⟨h e, 200⟩) ∧
    (∀ (table : List (ErrorKey × (PyExc → String))) (e : PyExc),
        (∀ kh ∈ table, errorKeyMatches kh.1 e = false) →
        handle_exception table e
          = ⟨"Internal Server Error: " ++ e.msg, e.code.getD 500⟩) := by
  constructor
  · intro pre post k h e hpre hk
    induction pre with
    | nil =>
        cases k with
        | excType t =>
            have ht : t ∈ e.types := of_decide_eq_true hk
            simp [handle_exception, ht, make_response_bare]
        | status c =>
            have hc : e.code = some c := of_decide_eq_true hk
            simp [handle_exception, hc, make_response_bare]
    | cons kh pre' ih =>
        have hfail : errorKeyMatches kh.1 e = false := hpre kh (by simp)
        have hrest : ∀ kh2 ∈ pre', errorKeyMatches kh2.1 e = false :=
          fun kh2 hm => hpre kh2 (by simp [hm])
        rcases kh with ⟨k0, h0⟩
        cases k0 with
        | excType t =>
            have ht : ¬ t ∈ e.types := by
              simpa [errorKeyMatches] using hfail
            simpa [handle_exception, ht] using ih hrest
        | status c =>
            cases hc : e.code with
            | none => simpa [handle_exception, hc] using ih hrest
            | some ec =>
                have hne : ¬ ec = c := by
                  simp [errorKeyMatches, hc] at hfail
                  exact fun hh => hfail (by rw [hh])
                simpa [handle_exception, hc, hne] using ih hrest
  · intro table e htable
    induction table with
    | nil =>
        cases hc : e.code <;> simp [handle_exception, hc]
    | cons kh rest ih =>
        have hfail : errorKeyMatches kh.1 e = false := htable kh (by simp)
        have hrest : ∀ kh2 ∈ rest, errorKeyMatches kh2.1 e = false :=
          fun kh2 hm => htable kh2 (by simp [hm])
        rcases kh with ⟨k0, h0⟩
        cases k0 with
        | excType t =>
            have ht : ¬ t ∈ e.types := by
              simpa [errorKeyMatches] using hfail
            simpa [handle_exception, ht] using ih hrest
        | status c =>
            cases hc : e.code with
            | none => simpa [handle_exception, hc] using ih hrest
            | some ec =>
                have hne : ¬ ec = c := by
                  simp [errorKeyMatches, hc] at hfail
                  exact fun hh => hfail (by rw [hh])
                simpa [handle_exception, hc, hne] using ih hrest

/-- Witness for claim C9's amended statement: a status-keyed entry that
does not match followed by a matching type-keyed entry, and the
no-handler default at an exception carrying `code = 418`. -/
theorem handle_exception_first_match_registration_order_witness :
    errorKeyMatches (.excType 7) ⟨[7], "m", none⟩ = true ∧
    handle_exception
        [(.status 99, fun _ => "x"), (.excType 7, fun _ => "ok")]
        ⟨[7], "m", none⟩ = ⟨"ok", 200⟩ ∧
    handle_exception [] ⟨[3], "boom", some 418⟩
      = ⟨"Internal Server Error: " ++ "boom", (some (418 : Int)).getD 500⟩ := by
  refine ⟨rfl, ?_, ?_⟩
  · have hpre : ∀ kh ∈ [((ErrorKey.status 99),
        (fun _ => "x" : PyExc → String))],
        errorKeyMatches kh.1 ⟨[7], "m", none⟩ = false := by
      intro kh hkh
      rw [List.mem_singleton] at hkh
      subst hkh
      rfl
    exact handle_exception_first_match_registration_order.1
      [(.status 99, fun _ => "x")] [] (.excType 7) (fun _ => "ok")
      ⟨[7], "m", none⟩ hpre rfl
  · exact handle_exception_first_match_registration_order.2 []
      ⟨[3], "boom", some 418⟩ (by intro kh hkh; cases hkh)

/-! ### Claims C3 and C4: WebSocket bridge
(`src/python/bustapi/websocket.py`) -/

/-- A payload delivered to a connection: text (`on_message`) or binary
(`on_binary`); both land in the same queue (`websocket.py:74-76,248`). -/
inductive WSPayload where
  | text (s : String)
  | bin (b : List Nat)
deriving DecidableEq, Repr

/-- The `WebSocket` wrapper's mutable state (`websocket.py:38-39`): the
`asyncio.Queue` contents — `none` is the end-of-stream sentinel pushed
by `_receive_close` — and the `_closed` flag. -/
structure WSConn where
  queue : List (Option WSPayload)
  closed : Bool
deriving DecidableEq, Repr

/-- `WebSocket._receive_message` (`websocket.py:74-76`):
`put_nowait(message)`. -/
def ws_receive_message (w : WSConn) (p : WSPayload) : WSConn :=
  { w with queue := w.queue ++ [some p] }

/-- `WebSocket._receive_close` (`websocket.py:78-81`): set `_closed` and
`put_nowait(None)`. -/
def ws_receive_close (w : WSConn) : WSConn :=
  { queue := w.queue ++ [none], closed := true }

/-- `WebSocket.receive` (`websocket.py:83-93`): return `None`
immediately when closed with an empty queue, otherwise await and
dequeue the next item; the outer `none` models the suspension when the
queue is empty and the connection still open. -/
def ws_receive (w : WSConn) : Option (Option WSPayload × WSConn) :=
  if w.closed ∧ w.queue.isEmpty then some (none, w)
  else
    match w.queue with
    | x :: rest => some (x, { w with queue := rest })
    | [] => none

/-- Result of `WebSocket.__anext__` (`websocket.py:99-104`). -/
inductive AnextStep where
  | item (p : WSPayload)
  | stopIteration
  | blocked
deriving DecidableEq, Repr

/-- `WebSocket.__anext__` (`websocket.py:99-104`): `receive()`, raising
`StopAsyncIteration` on `None`. -/
def ws_anext (w : WSConn) : AnextStep × WSConn :=
  match ws_receive w with
  | some (some p, w2) => (.item p, w2)
  | some (none, w2) => (.stopIteration, w2)
  | none => (.blocked, w)

/-- The results of `n` consecutive `receive()` calls, stopping early if
one would suspend forever. -/
def ws_receive_list : WSConn → Nat → List (Option WSPayload) × WSConn
  | w, 0 => ([], w)
  | w, n + 1 =>
      match ws_receive w with
      | some (x, w2) =>
          let r := ws_receive_list w2 n
          (x :: r.1, r.2)
      | none => ([], w)

/-- `WebSocketHandler`'s state (`websocket.py:114-123,156-181`):
the heap of `WebSocket` objects ever created (callbacks scheduled on the
loop keep a reference even after the registry entry is deleted), the
keys of the `_connections` registry, the keys of `_tasks`, the FIFO of
callbacks pending on the background event loop
(`call_soon_threadsafe`), and whether `_background_loop` exists. -/
structure WSHandlerState where
  objs : List (Nat × WSConn)
  live : List Nat
  tasks : List Nat
  loopCbs : List (Nat × WSPayload)
  hasLoop : Bool
deriving DecidableEq, Repr

/-- Apply `f` to the connection object with the given id. -/
def updObj (objs : List (Nat × WSConn)) (id : Nat) (f : WSConn → WSConn) :
    List (Nat × WSConn) :=
  objs.map (fun kv => if kv.1 = id then (kv.1, f kv.2) else kv)

/-- `WebSocketHandler.on_message` (`websocket.py:200-236`): for a
registered connection, schedule `ws._receive_message(message)` on the
background loop when it exists (`call_soon_threadsafe`, 214-215), else
through the task's loop (224-229), falling back to a direct call only
when no loop can be found (234). -/
def on_message (st : WSHandlerState) (id : Nat) (m : String) :
    WSHandlerState :=
  if st.live.contains id then
    if st.hasLoop then
      { st with loopCbs := st.loopCbs ++ [(id, .text m)] }
    else if st.tasks.contains id then
      { st with loopCbs := st.loopCbs ++ [(id, .text m)] }
    else
      { st with objs := updObj st.objs id (fun w => ws_receive_message w (.text m)) }
  else st

/-- `WebSocketHandler.on_binary` (`websocket.py:238-248`): for a
registered connection, call `ws._receive_message(data)` directly on the
delivering thread — unlike `on_message`, no loop scheduling. -/
def on_binary (st : WSHandlerState) (id : Nat) (b : List Nat) :
    WSHandlerState :=
  if st.live.contains id then
    { st with objs := updObj st.objs id (fun w => ws_receive_message w (.bin b)) }
  else st

/-- `WebSocketHandler.on_disconnect` (`websocket.py:250-257`): for a
registered connection, push the close sentinel and delete the registry
entry; then `_cleanup_task` (259-263) drops the task entry. -/
def on_disconnect (st : WSHandlerState) (id : Nat) : WSHandlerState :=
  let st1 :=
    if st.live.contains id then
      { st with objs := updObj st.objs id ws_receive_close,
                live := st.live.erase id }
    else st
  { st1 with tasks := st1.tasks.erase id }

/-- The background event loop thread running its pending callbacks in
FIFO order (`asyncio.call_soon_threadsafe` preserves submission order
per loop). -/
def loopDrain (st : WSHandlerState) : WSHandlerState :=
  { st with
      objs := st.loopCbs.foldl
        (fun o c => updObj o c.1 (fun w => ws_receive_message w c.2)) st.objs,
      loopCbs := [] }

/-- The queue of the connection object with the given id. -/
def objQueue (st : WSHandlerState) (id : Nat) :
    Option (List (Option WSPayload)) :=
  (st.objs.find? (fun kv => kv.1 = id)).map (fun kv => kv.2.queue)

/-- One freshly connected session (id 1) whose handler runs on the
background loop, as built by `on_connect` (`websocket.py:139-181`) when
the delivering thread has no running event loop. -/
def wsInit : WSHandlerState :=
  { objs := [(1, ⟨[], false⟩)], live := [1], tasks := [1],
    loopCbs := [], hasLoop := true }

/-- Claim C3: the engine thread delivers text "a" and then binary "b"
(98) to connection 1, after which the background loop runs its pending
callbacks.  The text message goes through `call_soon_threadsafe`
(`websocket.py:215`) and is enqueued only when the loop runs, while the
binary message is enqueued directly on the delivering thread
(`websocket.py:248`), so the handler's stream holds "b" before "a" —
delivery order `[a, b]`, observed order `[b, a]`, refuting the claimed
order preservation for this admissible schedule. -/
theorem on_binary_overtakes_text :
    objQueue (loopDrain (on_binary (on_message wsInit 1 "a") 1 [98])) 1
      = some [some (.bin [98]), some (.text "a")] ∧
    ([some (.bin [98]), some (.text "a")] :
        List (Option WSPayload))
      ≠ [some (.text "a"), some (.bin [98])] :=
  ⟨rfl, by decide⟩

/-- Claim C4: the engine thread delivers text "a" to connection 1
(`on_message`, deferred through `call_soon_threadsafe`,
`websocket.py:215`) and then calls `on_disconnect`, which pushes the
end-of-stream sentinel *directly* on the delivering thread
(`websocket.py:254`, `ws._receive_close`); the background loop runs its
pending callbacks afterwards — an admissible schedule.  The queue then
holds the sentinel *before* the message (first conjunct), so the first
`receive()` after disconnect returns the end-of-stream marker while "a"
is still pending behind it, and the next `receive()` returns that text
message *after* the marker (second conjunct) — the stream is not
terminal at the marker and yields a message after it, refuting the
claim on this schedule.  The message-then-sentinel order the claim
requires is the third conjunct's right-hand side, which differs. -/
theorem on_disconnect_sentinel_overtaken :
    objQueue (loopDrain (on_disconnect (on_message wsInit 1 "a") 1)) 1
      = some [none, some (.text "a")] ∧
    ws_receive_list ⟨[none, some (.text "a")], true⟩ 2
      = ([none, some (.text "a")], ⟨[], true⟩) ∧
    ([none, some (.text "a")] : List (Option WSPayload))
      ≠ [some (.text "a"), none] :=
  ⟨rfl, rfl, by decide⟩

/-! ### Claim C2: fast-path / full-path equivalence
(`src/python/bustapi/dispatch.py:91-111`,
`src/python/bustapi/app.py:591-605`).

The byte level is embedded exactly: Python `str.encode("utf-8")` and
`bytes.decode("utf-8", "replace")` are modelled by an executable UTF-8
codec over `Nat` code points and byte lists, with the decoder rejecting
overlong forms, surrogates and out-of-range values (one replacement
character per undecodable byte; the error branches are never reached on
encoder output, which is what the equivalence proof uses). -/

/-- UTF-8 encoding of one Unicode scalar value (Python
`str.encode("utf-8")`, applied codepoint-wise). -/
def utf8EncodeChar (c : Nat) : List Nat :=
  if c < 0x80 then [c]
  else if c < 0x800 then [0xC0 + c / 64, 0x80 + c % 64]
  else if c < 0x10000 then
    [0xE0 + c / 4096, 0x80 + c / 64 % 64, 0x80 + c % 64]
  else
    [0xF0 + c / 262144, 0x80 + c / 4096 % 64, 0x80 + c / 64 % 64,
      0x80 + c % 64]

/-- Decode one multi-byte UTF-8 sequence headed by `b`: the code point
and the number of continuation bytes consumed, `none` when `b` does not
begin a valid sequence (continuation bounds, overlong checks for `E0`
and `F0`, the surrogate ban at `ED`, and the `F4` cap). -/
def utf8DecodeMulti (b : Nat) (rest : List Nat) : Option (Nat × Nat) :=
  if 0xC2 ≤ b ∧ b ≤ 0xDF then
    match rest with
    | b2 :: _ =>
        if 0x80 ≤ b2 ∧ b2 ≤ 0xBF then
          some ((b - 0xC0) * 64 + (b2 - 0x80), 1)
        else none
    | _ => none
  else if 0xE0 ≤ b ∧ b ≤ 0xEF then
    match rest with
    | b2 :: b3 :: _ =>
        if (0x80 ≤ b2 ∧ b2 ≤ 0xBF) ∧ (0x80 ≤ b3 ∧ b3 ≤ 0xBF) ∧
            (b = 0xE0 → 0xA0 ≤ b2) ∧ (b = 0xED → b2 ≤ 0x9F) then
          some ((b - 0xE0) * 4096 + (b2 - 0x80) * 64 + (b3 - 0x80), 2)
        else none
    | _ => none
  else if 0xF0 ≤ b ∧ b ≤ 0xF4 then
    match rest with
    | b2 :: b3 :: b4 :: _ =>
        if (0x80 ≤ b2 ∧ b2 ≤ 0xBF) ∧ (0x80 ≤ b3 ∧ b3 ≤ 0xBF) ∧
            (0x80 ≤ b4 ∧ b4 ≤ 0xBF) ∧ (b = 0xF0 → 0x90 ≤ b2) ∧
            (b = 0xF4 → b2 ≤ 0x8F) then
          some ((b - 0xF0) * 262144 + (b2 - 0x80) * 4096 +
            (b3 - 0x80) * 64 + (b4 - 0x80), 3)
        else none
    | _ => none
  else none

/-- UTF-8 decoding of a byte list into code points, one replacement
character `U+FFFD` per undecodable byte (Python
`bytes.decode("utf-8", errors="replace")`). -/
def utf8DecodeCps : List Nat → List Nat
  | [] => []
  | b :: rest =>
      if b < 0x80 then b :: utf8DecodeCps rest
      else
        match utf8DecodeMulti b rest with
        | some (cp, k) => cp :: utf8DecodeCps (rest.drop k)
        | none => 0xFFFD :: utf8DecodeCps rest
termination_by l => l.length
decreasing_by
  · simp
  · simp only [List.length_cons, List.length_drop]
    omega
  · simp

/-- One-step unfolding of the decoder on a nonempty byte list. -/
theorem utf8DecodeCps_cons (b : Nat) (rest : List Nat) :
    utf8DecodeCps (b :: rest)
      = if b < 0x80 then b :: utf8DecodeCps rest
        else
          match utf8DecodeMulti b rest with
          | some (cp, k) => cp :: utf8DecodeCps (rest.drop k)
          | none => 0xFFFD :: utf8DecodeCps rest := by
  rw [utf8DecodeCps]

/-- A two-byte encoding decodes back to its code point. -/
theorem utf8DecodeMulti_enc2 (c : Nat) (h1 : 0x80 ≤ c) (h2 : c < 0x800)
    (rest : List Nat) :
    utf8DecodeMulti (0xC0 + c / 64) ((0x80 + c % 64) :: rest)
      = some (c, 1) := by
  simp only [utf8DecodeMulti]
  rw [if_pos (by omega : (0xC2 : Nat) ≤ 0xC0 + c / 64 ∧ 0xC0 + c / 64 ≤ 0xDF)]
  rw [if_pos (by omega :
    (0x80 : Nat) ≤ 0x80 + c % 64 ∧ 0x80 + c % 64 ≤ 0xBF)]
  have hv : (0xC0 + c / 64 - 0xC0) * 64 + (0x80 + c % 64 - 0x80) = c := by
    omega
  rw [hv]

/-- A three-byte encoding of a non-surrogate decodes back. -/
theorem utf8DecodeMulti_enc3 (c : Nat) (h1 : 0x800 ≤ c) (h2 : c < 0x10000)
    (hs : c < 0xD800 ∨ 0xDFFF < c) (rest : List Nat) :
    utf8DecodeMulti (0xE0 + c / 4096)
        ((0x80 + c / 64 % 64) :: (0x80 + c % 64) :: rest)
      = some (c, 2) := by
  simp only [utf8DecodeMulti]
  rw [if_neg (by omega :
    ¬ ((0xC2 : Nat) ≤ 0xE0 + c / 4096 ∧ 0xE0 + c / 4096 ≤ 0xDF))]
  rw [if_pos (by omega :
    (0xE0 : Nat) ≤ 0xE0 + c / 4096 ∧ 0xE0 + c / 4096 ≤ 0xEF)]
  rw [if_pos (by constructor; omega; refine ⟨by omega, by omega, by omega⟩)]
  have hv : (0xE0 + c / 4096 - 0xE0) * 4096 + (0x80 + c / 64 % 64 - 0x80) * 64
      + (0x80 + c % 64 - 0x80) = c := by
    omega
  rw [hv]

/-- A four-byte encoding decodes back. -/
theorem utf8DecodeMulti_enc4 (c : Nat) (h1 : 0x10000 ≤ c)
    (h2 : c < 0x110000) (rest : List Nat) :
    utf8DecodeMulti (0xF0 + c / 262144)
        ((0x80 + c / 4096 % 64) :: (0x80 + c / 64 % 64) ::
          (0x80 + c % 64) :: rest)
      = some (c, 3) := by
  simp only [utf8DecodeMulti]
  rw [if_neg (by omega :
    ¬ ((0xC2 : Nat) ≤ 0xF0 + c / 262144 ∧ 0xF0 + c / 262144 ≤ 0xDF))]
  rw [if_neg (by omega :
    ¬ ((0xE0 : Nat) ≤ 0xF0 + c / 262144 ∧ 0xF0 + c / 262144 ≤ 0xEF))]
  rw [if_pos (by omega :
    (0xF0 : Nat) ≤ 0xF0 + c / 262144 ∧ 0xF0 + c / 262144 ≤ 0xF4)]
  rw [if_pos (by refine ⟨by omega, by omega, by omega, by omega, by omega⟩)]
  have hv : (0xF0 + c / 262144 - 0xF0) * 262144
      + (0x80 + c / 4096 % 64 - 0x80) * 4096
      + (0x80 + c / 64 % 64 - 0x80) * 64 + (0x80 + c % 64 - 0x80) = c := by
    omega
  rw [hv]

/-- Decoding after encoding peels exactly one valid scalar value. -/
theorem utf8DecodeCps_encodeChar (c : Nat)
    (hv : c < 0xD800 ∨ (0xDFFF < c ∧ c < 0x110000)) (rest : List Nat) :
    utf8DecodeCps (utf8EncodeChar c ++ rest) = c :: utf8DecodeCps rest := by
  by_cases h1 : c < 0x80
  · rw [show utf8EncodeChar c = [c] by rw [utf8EncodeChar, if_pos h1]]
    rw [List.cons_append, List.nil_append, utf8DecodeCps_cons, if_pos h1]
  · by_cases h2 : c < 0x800
    · rw [show utf8EncodeChar c = [0xC0 + c / 64, 0x80 + c % 64] by
        rw [utf8EncodeChar, if_neg h1, if_pos h2]]
      rw [show ([0xC0 + c / 64, 0x80 + c % 64] : List Nat) ++ rest
          = (0xC0 + c / 64) :: (0x80 + c % 64) :: rest by simp]
      rw [utf8DecodeCps_cons, if_neg (by omega),
        utf8DecodeMulti_enc2 c (by omega) h2 rest]
      rfl
    · by_cases h3 : c < 0x10000
      · rw [show utf8EncodeChar c
            = [0xE0 + c / 4096, 0x80 + c / 64 % 64, 0x80 + c % 64] by
          rw [utf8EncodeChar, if_neg h1, if_neg h2, if_pos h3]]
        rw [show ([0xE0 + c / 4096, 0x80 + c / 64 % 64, 0x80 + c % 64] :
              List Nat) ++ rest
            = (0xE0 + c / 4096) :: (0x80 + c / 64 % 64) ::
              (0x80 + c % 64) :: rest by simp]
        rw [utf8DecodeCps_cons, if_neg (by omega),
          utf8DecodeMulti_enc3 c (by omega) h3 (by omega) rest]
        rfl
      · rw [show utf8EncodeChar c
            = [0xF0 + c / 262144, 0x80 + c / 4096 % 64, 0x80 + c / 64 % 64,
                0x80 + c % 64] by
          rw [utf8EncodeChar, if_neg h1, if_neg h2, if_neg h3]]
        rw [show ([0xF0 + c / 262144, 0x80 + c / 4096 % 64,
              0x80 + c / 64 % 64, 0x80 + c % 64] : List Nat) ++ rest
            = (0xF0 + c / 262144) :: (0x80 + c / 4096 % 64) ::
              (0x80 + c / 64 % 64) :: (0x80 + c % 64) :: rest by simp]
        rw [utf8DecodeCps_cons, if_neg (by omega),
          utf8DecodeMulti_enc4 c (by omega) (by omega) rest]
        rfl

/-- Round trip over a list of valid scalar values. -/
theorem utf8DecodeCps_encodeList (cs : List Nat)
    (h : ∀ c ∈ cs, c < 0xD800 ∨ (0xDFFF < c ∧ c < 0x110000)) :
    utf8DecodeCps ((cs.map utf8EncodeChar).flatten) = cs := by
  induction cs with
  | nil => simp [utf8DecodeCps]
  | cons c rest ih =>
      rw [List.map_cons, List.flatten_cons,
        utf8DecodeCps_encodeChar c (h c (by simp)) _,
        ih (fun x hx => h x (by simp [hx]))]

/-- Python `s.encode("utf-8")`. -/
def pyEncodeUtf8 (s : String) : List Nat :=
  (s.data.map (fun c => utf8EncodeChar c.toNat)).flatten

/-- Python `b.decode("utf-8", errors="replace")`
(`dispatch.py:97`, `app.py:605`). -/
def pyDecodeUtf8Replace (l : List Nat) : String :=
  ⟨(utf8DecodeCps l).map Char.ofNat⟩

/-- Decoding the encoding of a string is the identity. -/
theorem pyDecode_pyEncode (s : String) :
    pyDecodeUtf8Replace (pyEncodeUtf8 s) = s := by
  unfold pyDecodeUtf8Replace pyEncodeUtf8
  rw [show s.data.map (fun c => utf8EncodeChar c.toNat)
      = (s.data.map Char.toNat).map utf8EncodeChar by rw [List.map_map]; rfl]
  rw [utf8DecodeCps_encodeList _ (by
    intro x hx
    rw [List.mem_map] at hx
    obtain ⟨ch, _, rfl⟩ := hx
    have hc := ch.valid
    unfold UInt32.isValidChar at hc
    exact hc)]
  rw [List.map_map]
  have hmap : List.map (Char.ofNat ∘ Char.toNat) s.data
      = List.map id s.data :=
    List.map_congr_left (fun ch _ => Char.ofNat_toNat ch)
  rw [hmap, List.map_id]

/-- One hexadecimal digit, lowercase, as Python's `json` emits. -/
def hexDigit (n : Nat) : Char :=
  if n < 10 then Char.ofNat (48 + n) else Char.ofNat (87 + n)

/-- Four-digit hexadecimal form used in `\uXXXX` escapes. -/
def hex4 (n : Nat) : String :=
  String.mk [hexDigit (n / 4096 % 16), hexDigit (n / 256 % 16),
    hexDigit (n / 16 % 16), hexDigit (n % 16)]

/-- Escaping of one character inside a JSON string literal with
Python's defaults (`ensure_ascii=True`): the two-character escapes,
`\uXXXX` for other control or non-ASCII characters, and surrogate
pairs beyond the basic plane. -/
def jsonEscapeChar (c : Char) : String :=
  if c = '"' then "\\\""
  else if c = '\\' then "\\\\"
  else if c = '\n' then "\\n"
  else if c = '\x0d' then "\\r"
  else if c = '\t' then "\\t"
  else if c = '\x08' then "\\b"
  else if c = '\x0c' then "\\f"
  else if c.toNat < 0x20 then "\\u" ++ hex4 c.toNat
  else if c.toNat < 0x7F then String.singleton c
  else if c.toNat < 0x10000 then "\\u" ++ hex4 c.toNat
  else
    "\\u" ++ hex4 (0xD800 + (c.toNat - 0x10000) / 0x400) ++
      "\\u" ++ hex4 (0xDC00 + (c.toNat - 0x10000) % 0x400)

/-- A JSON string literal. -/
def jsonQuote (s : String) : String :=
  "\"" ++ (s.data.foldl (fun acc ch => acc ++ jsonEscapeChar ch) "") ++ "\""

/-- JSON-serializable Python values, as they may appear in a dict
returned by a handler. -/
inductive PyJson where
  | null
  | bool (b : Bool)
  | int (n : Int)
  | str (s : String)
  | arr (xs : List PyJson)
  | obj (kvs : List (String × PyJson))

mutual

/-- Python `json.dumps` with its default arguments (`dispatch.py:99-102`
imports `json` and calls `json.dumps(result)`): insertion order, the
default `", "` and `": "` separators, `ensure_ascii`. -/
def jsonDumps : PyJson → String
  | .null => "null"
  | .bool true => "true"
  | .bool false => "false"
  | .int n => toString n
  | .str s => jsonQuote s
  | .arr xs => "[" ++ jsonDumpsList xs ++ "]"
  | .obj kvs => "\x7b" ++ jsonDumpsObj kvs ++ "\x7d"

/-- Array elements joined by `", "`. -/
def jsonDumpsList : List PyJson → String
  | [] => ""
  | [x] => jsonDumps x
  | x :: y :: rest => jsonDumps x ++ ", " ++ jsonDumpsList (y :: rest)

/-- Object entries `"key": value` joined by `", "`. -/
def jsonDumpsObj : List (String × PyJson) → String
  | [] => ""
  | [(k, v)] => jsonQuote k ++ ": " ++ jsonDumps v
  | (k, v) :: p :: rest =>
      jsonQuote k ++ ": " ++ jsonDumps v ++ ", " ++ jsonDumpsObj (p :: rest)

end

/-- The handler-result shapes the fast path covers
(`dispatch.py:94-105`): `str`, `bytes`, `dict`. -/
inductive HResult where
  | str (s : String)
  | bytes (b : List Nat)
  | dict (kvs : List (String × PyJson))

/-- The fast-path return tuples of the sync wrapper
(`dispatch.py:93-105`): `(result, 200, ...)` for a `str`, the
replace-decoded bytes for `bytes`, `json.dumps` with the JSON content
type for a `dict`. -/
def fastPathReturn (r : HResult) : String × Int × List (String × String) :=
  match r with
  | .str s => (s, 200, [])
  | .bytes b => (pyDecodeUtf8Replace b, 200, [])
  | .dict kvs =>
      (jsonDumps (.obj kvs), 200, [("Content-Type", "application/json")])

/-- A constructed `Response` as `_response_to_rust_format` reads it:
payload bytes (`get_data(as_text=False)`), status code, headers. -/
structure FullResponse where
  body : List Nat
  status_code : Int
  headers : List (String × String)

/-- Modelled from the spec: `make_response` on the three fast-path
result shapes (`response.py` is absent from `src/`); spec §4.2 step (e):
a bare value is `(body, 200)` and structured data implies
`application/json`, serialized with the same `json` module the fast path
uses.  A `str` body is stored UTF-8-encoded, `bytes` are stored as
given. -/
def make_response_result (r : HResult) : FullResponse :=
  match r with
  | .str s => ⟨pyEncodeUtf8 s, 200, []⟩
  | .bytes b => ⟨b, 200, []⟩
  | .dict kvs =>
      ⟨pyEncodeUtf8 (jsonDumps (.obj kvs)), 200,
        [("Content-Type", "application/json")]⟩

/-- `BustAPI._response_to_rust_format` (`app.py:591-605`): the
`(body, status, headers)` tuple with the body bytes decoded as UTF-8
with replacement. -/
def response_to_rust_format (resp : FullResponse) :
    String × Int × List (String × String) :=
  (pyDecodeUtf8Replace resp.body, resp.status_code, resp.headers)

/-- The no-middleware return of the sync wrapper over the fast-path
shapes (`dispatch.py:91-111,127`): the direct tuple when no session was
opened (no signing key) and no after-request hooks exist, the full
`make_response` plus conversion otherwise. -/
def sync_wrapper_result (sessionIsNone noAfterFuncs : Bool) (r : HResult) :
    String × Int × List (String × String) :=
  if sessionIsNone ∧ noAfterFuncs then fastPathReturn r
  else response_to_rust_format (make_response_result r)

/-- Claim C2: with no middleware (the branch modelled), no signing key
(so no session) and no after-request hooks, the fast-path tuple is
byte-identical — body, status and headers — to what the full path
(`make_response` followed by `_response_to_rust_format`) produces, for
every `str`, `bytes` and `dict` handler result. -/
theorem sync_wrapper_fast_path_byte_identical (r : HResult) :
    sync_wrapper_result true true r
      = response_to_rust_format (make_response_result r) := by
  cases r with
  | str s =>
      simp [sync_wrapper_result, fastPathReturn, make_response_result,
        response_to_rust_format, pyDecode_pyEncode]
  | bytes b =>
      simp [sync_wrapper_result, fastPathReturn, make_response_result,
        response_to_rust_format]
  | dict kvs =>
      simp [sync_wrapper_result, fastPathReturn, make_response_result,
        response_to_rust_format, pyDecode_pyEncode]

end BustAPI
